import Mathlib

/-!
Verification of the combat resolution core of pyTTRPGsimulator.

Shallow embedding of the Python sources:
 * `damages.py`    — damage-type taxonomy and `Damage` events;
 * `modifiers.py`  — `DamageModifier` / `Resistance` / `Vulnerability`;
 * `actors.py`     — `Actor.calculate_damage_taken`, `Actor.take_damage`,
                     `Actor.new_round`, `Actor.update_modifiers`;
 * `attributes.py` — the `Attributes` dataclass and its `__add__`;
 * `actions.py`    — `Action._apply_costs`, `Attack.execute`, `Help.execute`;
 * `combat.py`     — `CombatManager.is_combat_over`.

Python `float` quantities (damage values, modifier values) are modelled as
exact rationals `ℚ`; Python `int` quantities as `ℤ`.  A modifier duration of
`math.inf` is modelled by `none : Option ℤ`.  Die rolls (`random.randint`)
are modelled by injected roll oracles, so every definition is a pure,
executable function.
-/

namespace PyTTRPG

/-- Damage-type class hierarchy of `damages.py`: `Physical` and `Mystical`
are the two bases, each concrete kind is a direct subclass of one of them
(created by `create_damage_class`). -/
inductive DamageClass where
  | physical | mystical
  | bludgeoning | cold | corrosion | fire | lightning | piercing | poison | slashing
  | psychic | radiant | sonic | umbral
deriving DecidableEq, Repr

namespace DamageClass

/-- Direct superclass in the taxonomy: every concrete kind points to its
base (`Physical` or `Mystical`); the two bases have only the elided common
root `DamageType` above them. -/
def parent : DamageClass → Option DamageClass
  | physical => none
  | mystical => none
  | bludgeoning | cold | corrosion | fire | lightning | piercing | poison | slashing =>
      some physical
  | psychic | radiant | sonic | umbral => some mystical

/-- Python `isinstance(x, C)` on damage-type objects: the class of `x`
equals `C` or is a (direct, the hierarchy has depth one) subclass of `C`. -/
def isInstanceOf (a b : DamageClass) : Bool :=
  a == b || a.parent == some b

end DamageClass

/-- Damage event of `damages.py`: an immutable (type, magnitude) pair. -/
structure Damage where
  damage_type : DamageClass
  value : ℚ
deriving DecidableEq, Repr

/-- Damage modifier of `modifiers.py` (`DamageModifier` and its subclasses
`Resistance` / `Vulnerability` carry the same data): a damage type, a value,
a multiplicative flag and a remaining duration (`none` = `math.inf`). -/
structure DamageModifier where
  damage_type : DamageClass
  value : ℚ
  is_multiplicative : Bool
  duration : Option ℤ := none
deriving DecidableEq, Repr

/-- Constructor `Resistance.__init__`: rejects a multiplicative resistance
whose value lies outside `[0, 1]` with a `ValueError`. -/
def Resistance.make (damage_type : DamageClass) (value : ℚ)
    (is_multiplicative : Bool) (duration : Option ℤ := none) :
    Except String DamageModifier :=
  if is_multiplicative && (value > 1 || value < 0) then
    .error "For multiplicative resistance, the value must be between 0 and 1."
  else
    .ok ⟨damage_type, value, is_multiplicative, duration⟩

/-- Constructor `Vulnerability.__init__`: rejects a multiplicative
vulnerability whose value is strictly less than 1 with a `ValueError`. -/
def Vulnerability.make (damage_type : DamageClass) (value : ℚ)
    (is_multiplicative : Bool) (duration : Option ℤ := none) :
    Except String DamageModifier :=
  if is_multiplicative && value < 1 then
    .error "For multiplicative vulnerability, the value must be greater than 1."
  else
    .ok ⟨damage_type, value, is_multiplicative, duration⟩

/-- Selection of the modifiers whose declared damage type matches the damage
event's type, as in `Actor.calculate_damage_taken`:
`isinstance(res.damage_type, type(damage.damage_type))`. -/
def matching_modifiers (ms : List DamageModifier) (d : Damage) : List DamageModifier :=
  ms.filter (fun m => m.damage_type.isInstanceOf d.damage_type)

/-- Sum of the values of the non-multiplicative resistances (step 3 of the
damage pipeline in `Actor.calculate_damage_taken`). -/
def additive_resistance (rs : List DamageModifier) : ℚ :=
  ((rs.filter (fun r => !r.is_multiplicative)).map (fun r => r.value)).sum

/-- Product of the values of the multiplicative resistances (1 if none). -/
def multiplicative_resistance (rs : List DamageModifier) : ℚ :=
  ((rs.filter (fun r => r.is_multiplicative)).map (fun r => r.value)).prod

/-- Sum of the values of the non-multiplicative vulnerabilities (step 4 of
the damage pipeline). -/
def additive_vulnerability (vs : List DamageModifier) : ℚ :=
  ((vs.filter (fun v => !v.is_multiplicative)).map (fun v => v.value)).sum

/-- Product of the values of the multiplicative vulnerabilities (1 if none). -/
def multiplicative_vulnerability (vs : List DamageModifier) : ℚ :=
  ((vs.filter (fun v => v.is_multiplicative)).map (fun v => v.value)).prod

/-- Generic timed modifier of `modifiers.py` (`Modifier` base class): only
its remaining duration matters to the round bookkeeping; `none` models the
default duration `math.inf`. -/
structure Modifier where
  duration : Option ℤ := none
deriving DecidableEq, Repr

/-- Method `Modifier.decrease_duration`: a finite duration is decremented and
the modifier reports expiry when it reaches 0; an infinite duration is left
untouched.  Returns the updated modifier and the expiry flag. -/
def Modifier.decrease_duration : Modifier → Modifier × Bool
  | ⟨none⟩ => (⟨none⟩, false)
  | ⟨some d⟩ => (⟨some (d - 1)⟩, decide (d - 1 ≤ 0))

/-- Damage-relevant and round-relevant projection of the `Actor` class of
`actors.py`: current health and resource pools, the per-turn and per-round
counters, the actor's aggregated resistances / vulnerabilities, its two
damage-reduction statistics (integers summed from `DefenseModifier`s), and
its timed modifiers. -/
structure Actor where
  health_points : ℚ := 1
  action_points : ℤ := 4
  max_action_points : ℤ := 4
  attack_count : ℤ := 0
  advantage_count : ℤ := 0
  one_time_hit_bonus : ℤ := 0
  help_count : ℤ := 0
  resistances : List DamageModifier := []
  vulnerabilities : List DamageModifier := []
  physical_damage_reduction : ℤ := 0
  mystical_damage_reduction : ℤ := 0
  modifiers : List Modifier := []
deriving DecidableEq, Repr

namespace Actor

/-- Method `Actor.calculate_damage_taken` of `actors.py`: the damage
pipeline.  Starting from the magnitude, subtract the additive resistances and
multiply by the multiplicative ones, then add the additive vulnerabilities
and multiply by the multiplicative ones, subtract the physical or mystical
damage reduction (selected by `isinstance(damage.damage_type, Physical)`),
and clamp the result at 0. -/
def calculate_damage_taken (a : Actor) (d : Damage) : ℚ :=
  let resistances := matching_modifiers a.resistances d
  let vulnerabilities := matching_modifiers a.vulnerabilities d
  let damage_value :=
    (d.value - additive_resistance resistances) * multiplicative_resistance resistances
  let damage_value :=
    (damage_value + additive_vulnerability vulnerabilities)
      * multiplicative_vulnerability vulnerabilities
  let reduction : ℚ :=
    if d.damage_type.isInstanceOf .physical then a.physical_damage_reduction
    else a.mystical_damage_reduction
  let damage_value := damage_value - reduction
  max damage_value 0

/-- Method `Actor.take_damage` of `actors.py`: total the pipeline results of
all damage events in the list and subtract the total from health. -/
def take_damage (a : Actor) (ds : List Damage) : Actor :=
  { a with health_points :=
      a.health_points - (ds.map (fun d => a.calculate_damage_taken d)).sum }

/-- Method `Actor.update_modifiers` of `actors.py`: decrement every
modifier's duration and remove those that report expiry. -/
def update_modifiers (a : Actor) : Actor :=
  let ticked := a.modifiers.map Modifier.decrease_duration
  let kept := (ticked.filter (fun p => !p.2)).map (fun p => p.1)
  { a with modifiers := kept }

/-- Method `Actor.new_round` of `actors.py`: restore action points to the
maximum, tick modifier durations, and reset the attack, advantage and help
counters. -/
def new_round (a : Actor) : Actor :=
  let a := { a with action_points := a.max_action_points }
  let a := a.update_modifiers
  { a with attack_count := 0, advantage_count := 0, help_count := 0 }

end Actor

/-- Team-roster projection of the `CombatManager` class of `combat.py`. -/
structure CombatManager where
  team_a : List Actor
  team_b : List Actor
deriving Repr

/-- Method `CombatManager.is_combat_over`: the fight is over unless both
teams still contain an actor with strictly positive health. -/
def CombatManager.is_combat_over (cm : CombatManager) : Bool :=
  let team_a_alive := cm.team_a.any (fun actor => decide (actor.health_points > 0))
  let team_b_alive := cm.team_b.any (fun actor => decide (actor.health_points > 0))
  !(team_a_alive && team_b_alive)

/-- CLAIM C1.  `Actor.calculate_damage_taken` returns
`max 0 (((magnitude - Σ additive matching resistances) * Π multiplicative
matching resistances + Σ additive matching vulnerabilities) * Π
multiplicative matching vulnerabilities - reduction)` where the reduction is
the physical or mystical damage-reduction stat selected by whether the
damage type is `Physical`, and the result is never negative. -/
theorem calculate_damage_taken_formula_and_clamp (a : Actor) (d : Damage) :
    a.calculate_damage_taken d =
      max 0
        (((d.value - additive_resistance (matching_modifiers a.resistances d))
            * multiplicative_resistance (matching_modifiers a.resistances d)
          + additive_vulnerability (matching_modifiers a.vulnerabilities d))
            * multiplicative_vulnerability (matching_modifiers a.vulnerabilities d)
          - (if d.damage_type.isInstanceOf .physical
              then (a.physical_damage_reduction : ℚ)
              else (a.mystical_damage_reduction : ℚ)))
    ∧ 0 ≤ a.calculate_damage_taken d := by
  constructor
  · simp only [Actor.calculate_damage_taken]
    exact max_comm _ _
  · simp only [Actor.calculate_damage_taken]
    exact le_max_right _ _

/-- Attributes bundle of `attributes.py`: the dataclass fields, in source
order.  `death_door_HP_threshold` and `true_damage_on_new_turn` carry no
type annotation in the source, so they are plain class attributes rather
than dataclass fields and do not take part in `__add__`; they are omitted.
The defaults give the all-zero / all-false identity bundle `Attributes()`. -/
structure Attributes where
  physical_defense : ℤ := 0
  mystical_defense : ℤ := 0
  physical_damage_reduction : ℤ := 0
  mystical_damage_reduction : ℤ := 0
  max_health_points : ℤ := 0
  max_stamina_points : ℤ := 0
  max_grit_points : ℤ := 0
  max_mana_points : ℤ := 0
  might : ℤ := 0
  agility : ℤ := 0
  intelligence : ℤ := 0
  charisma : ℤ := 0
  prime_modifier_bonus : ℤ := 0
  might_save : ℤ := 0
  agility_save : ℤ := 0
  intelligence_save : ℤ := 0
  charisma_save : ℤ := 0
  might_check : ℤ := 0
  agility_check : ℤ := 0
  intelligence_check : ℤ := 0
  charisma_check : ℤ := 0
  initiative : ℤ := 0
  move_speed : ℤ := 0
  might_adv : ℤ := 0
  agility_adv : ℤ := 0
  intelligence_adv : ℤ := 0
  charisma_adv : ℤ := 0
  combat_mastery : ℤ := 0
  spell_DC : ℤ := 0
  max_action_points : ℤ := 0
  max_attack_before_penalty : ℤ := 0
  critical_hit_damage : ℤ := 0
  critical_hit_threshold : ℤ := 0
  heavy_hit_damage : ℤ := 0
  brutal_hit_damage : ℤ := 0
  death_threshold : ℤ := 0
  mastery_light_armor : Bool := false
  mastery_heavy_armor : Bool := false
  is_magic : Bool := false
  is_bleeding : Bool := false
  is_blinded : Bool := false
  is_burning : Bool := false
  is_charmed : Bool := false
  is_dazed : Bool := false
  is_deafened : Bool := false
  is_doomed : Bool := false
  is_exposed : Bool := false
  is_frightened : Bool := false
  is_grappled : Bool := false
  is_hindered : Bool := false
  is_impaired : Bool := false
  is_incapacitated : Bool := false
  is_intimidated : Bool := false
  is_invisible : Bool := false
  is_paralyzed : Bool := false
  is_petrified : Bool := false
  is_prone : Bool := false

namespace Attributes

/-- Method `Attributes.__add__`: element-wise combination — every integer
field adds, every boolean field ORs. -/
def add (a b : Attributes) : Attributes where
  physical_defense := a.physical_defense + b.physical_defense
  mystical_defense := a.mystical_defense + b.mystical_defense
  physical_damage_reduction := a.physical_damage_reduction + b.physical_damage_reduction
  mystical_damage_reduction := a.mystical_damage_reduction + b.mystical_damage_reduction
  max_health_points := a.max_health_points + b.max_health_points
  max_stamina_points := a.max_stamina_points + b.max_stamina_points
  max_grit_points := a.max_grit_points + b.max_grit_points
  max_mana_points := a.max_mana_points + b.max_mana_points
  might := a.might + b.might
  agility := a.agility + b.agility
  intelligence := a.intelligence + b.intelligence
  charisma := a.charisma + b.charisma
  prime_modifier_bonus := a.prime_modifier_bonus + b.prime_modifier_bonus
  might_save := a.might_save + b.might_save
  agility_save := a.agility_save + b.agility_save
  intelligence_save := a.intelligence_save + b.intelligence_save
  charisma_save := a.charisma_save + b.charisma_save
  might_check := a.might_check + b.might_check
  agility_check := a.agility_check + b.agility_check
  intelligence_check := a.intelligence_check + b.intelligence_check
  charisma_check := a.charisma_check + b.charisma_check
  initiative := a.initiative + b.initiative
  move_speed := a.move_speed + b.move_speed
  might_adv := a.might_adv + b.might_adv
  agility_adv := a.agility_adv + b.agility_adv
  intelligence_adv := a.intelligence_adv + b.intelligence_adv
  charisma_adv := a.charisma_adv + b.charisma_adv
  combat_mastery := a.combat_mastery + b.combat_mastery
  spell_DC := a.spell_DC + b.spell_DC
  max_action_points := a.max_action_points + b.max_action_points
  max_attack_before_penalty := a.max_attack_before_penalty + b.max_attack_before_penalty
  critical_hit_damage := a.critical_hit_damage + b.critical_hit_damage
  critical_hit_threshold := a.critical_hit_threshold + b.critical_hit_threshold
  heavy_hit_damage := a.heavy_hit_damage + b.heavy_hit_damage
  brutal_hit_damage := a.brutal_hit_damage + b.brutal_hit_damage
  death_threshold := a.death_threshold + b.death_threshold
  mastery_light_armor := a.mastery_light_armor || b.mastery_light_armor
  mastery_heavy_armor := a.mastery_heavy_armor || b.mastery_heavy_armor
  is_magic := a.is_magic || b.is_magic
  is_bleeding := a.is_bleeding || b.is_bleeding
  is_blinded := a.is_blinded || b.is_blinded
  is_burning := a.is_burning || b.is_burning
  is_charmed := a.is_charmed || b.is_charmed
  is_dazed := a.is_dazed || b.is_dazed
  is_deafened := a.is_deafened || b.is_deafened
  is_doomed := a.is_doomed || b.is_doomed
  is_exposed := a.is_exposed || b.is_exposed
  is_frightened := a.is_frightened || b.is_frightened
  is_grappled := a.is_grappled || b.is_grappled
  is_hindered := a.is_hindered || b.is_hindered
  is_impaired := a.is_impaired || b.is_impaired
  is_incapacitated := a.is_incapacitated || b.is_incapacitated
  is_intimidated := a.is_intimidated || b.is_intimidated
  is_invisible := a.is_invisible || b.is_invisible
  is_paralyzed := a.is_paralyzed || b.is_paralyzed
  is_petrified := a.is_petrified || b.is_petrified
  is_prone := a.is_prone || b.is_prone

theorem add_comm_law (a b : Attributes) : add a b = add b a := by
  simp [add, Int.add_comm, Bool.or_comm]

theorem add_assoc_law (a b c : Attributes) :
    add (add a b) c = add a (add b c) := by
  simp [add, Int.add_assoc, Bool.or_assoc]

instance : RightCommutative add :=
  ⟨fun b a₁ a₂ => by
    rw [add_assoc_law, add_assoc_law, add_comm_law a₁ a₂]⟩

end Attributes

/-- Method `Entity.aggregate_attributes` of `entity.py`: fold the attribute
sources with `__add__`, starting from the identity bundle `Attributes()`. -/
def aggregate_attributes (sources : List Attributes) : Attributes :=
  sources.foldl Attributes.add {}

/-- CLAIM C2.  `Attributes.__add__` is commutative and associative, so
folding any permutation of the same list of attribute sources from the
identity bundle yields the same result bundle. -/
theorem attributes_combine_comm_assoc_perm (a b c : Attributes)
    (l₁ l₂ : List Attributes) (h : l₁.Perm l₂) :
    Attributes.add a b = Attributes.add b a ∧
    Attributes.add (Attributes.add a b) c = Attributes.add a (Attributes.add b c) ∧
    aggregate_attributes l₁ = aggregate_attributes l₂ :=
  ⟨Attributes.add_comm_law a b, Attributes.add_assoc_law a b c, by
    unfold aggregate_attributes
    exact h.foldl_eq _⟩

/-- Sample attribute bundle granting 1 Might, for the C2 witness. -/
def attrSampleMight : Attributes := { might := 1 }

/-- Sample attribute bundle granting 2 Agility, for the C2 witness. -/
def attrSampleAgility : Attributes := { agility := 2 }

/-- Sample attribute bundle with the magic flag set, for the C2 witness. -/
def attrSampleMagic : Attributes := { is_magic := true }

/-- Witness for C2: two distinct singleton bundles, combined in both orders
and aggregated in both orders. -/
theorem attributes_combine_comm_assoc_perm_witness :
    Attributes.add attrSampleMight attrSampleAgility =
      Attributes.add attrSampleAgility attrSampleMight ∧
    Attributes.add (Attributes.add attrSampleMight attrSampleAgility) attrSampleMagic =
      Attributes.add attrSampleMight (Attributes.add attrSampleAgility attrSampleMagic) ∧
    aggregate_attributes [attrSampleAgility, attrSampleMight] =
      aggregate_attributes [attrSampleMight, attrSampleAgility] :=
  attributes_combine_comm_assoc_perm attrSampleMight attrSampleAgility attrSampleMagic
    [attrSampleAgility, attrSampleMight] [attrSampleMight, attrSampleAgility]
    (List.Perm.swap attrSampleMight attrSampleAgility [])

/-- CLAIM C7.  `CombatManager.is_combat_over` returns `True` iff at least
one of the two teams has no member with `health_points > 0`. -/
theorem is_combat_over_iff (cm : CombatManager) :
    cm.is_combat_over = true ↔
      ((∀ a ∈ cm.team_a, a.health_points ≤ 0) ∨ (∀ b ∈ cm.team_b, b.health_points ≤ 0)) := by
  simp only [CombatManager.is_combat_over, Bool.not_eq_true', Bool.and_eq_false_iff,
    List.any_eq_false, decide_eq_true_eq, not_lt]

/-- CLAIM C8.  `Actor.new_round` establishes `action_points =
max_action_points` and zero attack / advantage / help counters whatever the
prior state, and calling it twice leaves those four fields as one call
does. -/
theorem new_round_resets_and_idempotent (a : Actor) :
    (a.new_round).action_points = a.max_action_points ∧
    (a.new_round).attack_count = 0 ∧
    (a.new_round).advantage_count = 0 ∧
    (a.new_round).help_count = 0 ∧
    (a.new_round.new_round).action_points = (a.new_round).action_points ∧
    (a.new_round.new_round).attack_count = (a.new_round).attack_count ∧
    (a.new_round.new_round).advantage_count = (a.new_round).advantage_count ∧
    (a.new_round.new_round).help_count = (a.new_round).help_count := by
  simp [Actor.new_round, Actor.update_modifiers]

/-- Weapon projection of `items.py`: the list of damage components.  A
weapon's styles act on the defender; their per-style results are passed to
the attack model separately (see `apply_styles`). -/
structure Weapon where
  damages : List Damage
deriving DecidableEq, Repr

/-- Declared resource costs of an `Action` (`actions.py`). -/
structure ActionCosts where
  action_points_cost : ℤ := 0
  mana_points_cost : ℤ := 0
  stamina_points_cost : ℤ := 0
deriving DecidableEq, Repr

/-- Actor interface consumed by `actions.py`: the three current resource
pools, the per-turn and per-round combat counters, the dodge flags, the
attack-roll statistics (prime modifier, combat mastery, critical-hit
threshold, heavy/brutal/critical/flat hit damage, attack-before-penalty
threshold), the defense and damage-reduction statistics, the aggregated
damage modifiers and the equipped weapons.  The snapshot's `actors.py` is an
older revision of this interface (its pools are named without the
`current_` prefix and its `take_damage` takes no flag); the field set here
is the one `actions.py` reads and writes. -/
structure ActorState where
  current_action_points : ℤ := 0
  current_mana_points : ℤ := 0
  current_stamina_points : ℤ := 0
  health_points : ℚ := 1
  attack_count : ℤ := 0
  advantage_count : ℤ := 0
  max_attack_before_penalty : ℤ := 1
  one_time_hit_bonus : ℤ := 0
  help_count : ℤ := 0
  is_dodging : Bool := false
  is_full_dodging : Bool := false
  prime_modifier : ℤ := 0
  combat_mastery : ℤ := 0
  critical_hit_threshold : ℤ := 20
  heavy_hit_damage : ℤ := 0
  brutal_hit_damage : ℤ := 0
  critical_hit_damage : ℤ := 0
  hit_damage : ℤ := 0
  physical_defense : ℤ := 8
  physical_damage_reduction : ℤ := 0
  mystical_damage_reduction : ℤ := 0
  resistances : List DamageModifier := []
  vulnerabilities : List DamageModifier := []
  weapons : List Weapon := []

/-- Method `Action._apply_costs` of `actions.py`: check the three pools in
order (action points, then mana, then stamina); on the first insufficient
pool return `False` with the actor untouched; otherwise deduct all three
costs and return `True`. -/
def Action.apply_costs (c : ActionCosts) (actor : ActorState) : Bool × ActorState :=
  if actor.current_action_points < c.action_points_cost then (false, actor)
  else if actor.current_mana_points < c.mana_points_cost then (false, actor)
  else if actor.current_stamina_points < c.stamina_points_cost then (false, actor)
  else (true, { actor with
    current_action_points := actor.current_action_points - c.action_points_cost
    current_mana_points := actor.current_mana_points - c.mana_points_cost
    current_stamina_points := actor.current_stamina_points - c.stamina_points_cost })

theorem apply_costs_success (c : ActionCosts) (a : ActorState)
    (h1 : c.action_points_cost ≤ a.current_action_points)
    (h2 : c.mana_points_cost ≤ a.current_mana_points)
    (h3 : c.stamina_points_cost ≤ a.current_stamina_points) :
    Action.apply_costs c a = (true, { a with
      current_action_points := a.current_action_points - c.action_points_cost
      current_mana_points := a.current_mana_points - c.mana_points_cost
      current_stamina_points := a.current_stamina_points - c.stamina_points_cost }) := by
  unfold Action.apply_costs
  split_ifs with g1 g2 g3
  · exact absurd g1 (not_lt.2 h1)
  · exact absurd g2 (not_lt.2 h2)
  · exact absurd g3 (not_lt.2 h3)
  · rfl

theorem apply_costs_cases (c : ActionCosts) (a : ActorState) :
    Action.apply_costs c a = (false, a) ∨
    (Action.apply_costs c a = (true, { a with
        current_action_points := a.current_action_points - c.action_points_cost
        current_mana_points := a.current_mana_points - c.mana_points_cost
        current_stamina_points := a.current_stamina_points - c.stamina_points_cost }) ∧
      c.action_points_cost ≤ a.current_action_points ∧
      c.mana_points_cost ≤ a.current_mana_points ∧
      c.stamina_points_cost ≤ a.current_stamina_points) := by
  unfold Action.apply_costs
  split_ifs with g1 g2 g3
  · exact Or.inl rfl
  · exact Or.inl rfl
  · exact Or.inl rfl
  · exact Or.inr ⟨rfl, le_of_not_lt g1, le_of_not_lt g2, le_of_not_lt g3⟩

/-- CLAIM C6.  `Action._apply_costs` returns `False` and leaves the actor
state unchanged when any one of the three pools is strictly smaller than
its declared cost, and otherwise returns `True` after decrementing each
pool by exactly its declared cost. -/
theorem apply_costs_gate (c : ActionCosts) (a : ActorState) :
    (a.current_action_points < c.action_points_cost ∨
      a.current_mana_points < c.mana_points_cost ∨
      a.current_stamina_points < c.stamina_points_cost →
      Action.apply_costs c a = (false, a)) ∧
    (c.action_points_cost ≤ a.current_action_points →
      c.mana_points_cost ≤ a.current_mana_points →
      c.stamina_points_cost ≤ a.current_stamina_points →
      Action.apply_costs c a = (true, { a with
        current_action_points := a.current_action_points - c.action_points_cost
        current_mana_points := a.current_mana_points - c.mana_points_cost
        current_stamina_points := a.current_stamina_points - c.stamina_points_cost })) := by
  constructor
  · intro h
    unfold Action.apply_costs
    split_ifs with g1 g2 g3
    · rfl
    · rfl
    · rfl
    · rcases h with h | h | h <;> omega
  · exact apply_costs_success c a

/-- Sample action costs for the C6 witness. -/
def costsSample : ActionCosts := { action_points_cost := 1, mana_points_cost := 2 }

/-- Actor lacking mana for the C6 witness. -/
def actorPoor : ActorState := { current_action_points := 4, current_mana_points := 1 }

/-- Actor with sufficient pools for the C6 witness. -/
def actorRich : ActorState :=
  { current_action_points := 4, current_mana_points := 3, current_stamina_points := 2 }

/-- Witness for C6: the sample costs are refused on the poor actor without
any state change and deducted exactly on the rich actor. -/
theorem apply_costs_gate_witness :
    Action.apply_costs costsSample actorPoor = (false, actorPoor) ∧
    Action.apply_costs costsSample actorRich = (true, { actorRich with
      current_action_points := 3, current_mana_points := 1,
      current_stamina_points := 2 }) :=
  ⟨(apply_costs_gate costsSample actorPoor).1 (Or.inr (Or.inl (by decide))),
    (apply_costs_gate costsSample actorRich).2 (by decide) (by decide) (by decide)⟩

/-- Die size granted by the Help action in `Help.execute`: a d8 for the
helper's first help this round (`help_count == 0`), a d6 for the second, a
d4 from the third on. -/
def help_die (help_count : ℤ) : ℕ :=
  if help_count = 0 then 8 else if help_count = 1 then 6 else 4

/-- Result of one execution of the Help action. -/
structure HelpResult where
  source : ActorState
  target : ActorState
  performed : Bool
  die : ℕ
  bonus : ℕ

/-- Method `Help.execute` of `actions.py`: after the cost gate, roll the die
selected by the helper's own `help_count`, increment the helper's
`help_count`, and add the rolled bonus to the target's
`one_time_hit_bonus`.  The die roll `random.randint(1, n)` is modelled by
the injected oracle `roll`. -/
def Help.execute (c : ActionCosts) (roll : ℕ → ℕ) (source target : ActorState) :
    HelpResult :=
  match Action.apply_costs c source with
  | (false, s) => ⟨s, target, false, 0, 0⟩
  | (true, s) =>
    let die := help_die s.help_count
    let bonus := roll die
    let s1 := { s with help_count := s.help_count + 1 }
    let t1 := { target with one_time_hit_bonus := target.one_time_hit_bonus + (bonus : ℤ) }
    ⟨s1, t1, true, die, bonus⟩

theorem help_execute_success (c : ActionCosts) (roll : ℕ → ℕ) (s t : ActorState)
    (h1 : c.action_points_cost ≤ s.current_action_points)
    (h2 : c.mana_points_cost ≤ s.current_mana_points)
    (h3 : c.stamina_points_cost ≤ s.current_stamina_points) :
    Help.execute c roll s t = ⟨{ s with
        current_action_points := s.current_action_points - c.action_points_cost
        current_mana_points := s.current_mana_points - c.mana_points_cost
        current_stamina_points := s.current_stamina_points - c.stamina_points_cost
        help_count := s.help_count + 1 },
      { t with one_time_hit_bonus :=
          t.one_time_hit_bonus + (roll (help_die s.help_count) : ℤ) },
      true, help_die s.help_count, roll (help_die s.help_count)⟩ := by
  rw [Help.execute, apply_costs_success c s h1 h2 h3]

/-- CLAIM C9.  Every Help execution passing the cost gate draws its bonus
from the die selected by the helper's own `help_count` (d8 / d6 / d4 for 0 /
1 / ≥2), adds the bonus to the target's `one_time_hit_bonus`, and increments
the helper's `help_count` by exactly 1; consequently three consecutive Helps
by the same fresh helper grant d8, d6, d4 in that order. -/
theorem help_die_progression (c : ActionCosts) (roll : ℕ → ℕ) (src tgt : ActorState)
    (hroll : ∀ n, 1 ≤ n → 1 ≤ roll n ∧ roll n ≤ n)
    (hc0 : src.help_count = 0)
    (hap0 : 0 ≤ c.action_points_cost) (hmp0 : 0 ≤ c.mana_points_cost)
    (hsp0 : 0 ≤ c.stamina_points_cost)
    (hap : 3 * c.action_points_cost ≤ src.current_action_points)
    (hmp : 3 * c.mana_points_cost ≤ src.current_mana_points)
    (hsp : 3 * c.stamina_points_cost ≤ src.current_stamina_points) :
    (∀ s t : ActorState, (Help.execute c roll s t).performed = true →
      (Help.execute c roll s t).die = help_die s.help_count ∧
      (Help.execute c roll s t).bonus = roll (help_die s.help_count) ∧
      (Help.execute c roll s t).source.help_count = s.help_count + 1 ∧
      (Help.execute c roll s t).target.one_time_hit_bonus =
        t.one_time_hit_bonus + ((Help.execute c roll s t).bonus : ℤ)) ∧
    (help_die 0 = 8 ∧ help_die 1 = 6 ∧ ∀ hc : ℤ, 2 ≤ hc → help_die hc = 4) ∧
    (let r1 := Help.execute c roll src tgt
     let r2 := Help.execute c roll r1.source r1.target
     let r3 := Help.execute c roll r2.source r2.target
     r1.performed = true ∧ r2.performed = true ∧ r3.performed = true ∧
     r1.die = 8 ∧ r2.die = 6 ∧ r3.die = 4 ∧
     1 ≤ r1.bonus ∧ r1.bonus ≤ 8 ∧ 1 ≤ r2.bonus ∧ r2.bonus ≤ 6 ∧
     1 ≤ r3.bonus ∧ r3.bonus ≤ 4 ∧
     r3.source.help_count = 3 ∧
     r3.target.one_time_hit_bonus =
       tgt.one_time_hit_bonus + ((r1.bonus : ℤ) + r2.bonus + r3.bonus)) := by
  refine ⟨?_, ?_, ?_⟩
  · intro s t hperf
    rcases apply_costs_cases c s with h | ⟨h, _⟩
    · rw [Help.execute, h] at hperf
      simp at hperf
    · rw [Help.execute, h]
      exact ⟨rfl, rfl, rfl, rfl⟩
  · refine ⟨rfl, rfl, fun hc h2 => ?_⟩
    unfold help_die
    split_ifs with g1 g2
    · omega
    · omega
    · rfl
  · rw [help_execute_success c roll src tgt (by omega) (by omega) (by omega)]
    dsimp only
    rw [help_execute_success c roll _ _ (by dsimp only; omega) (by dsimp only; omega)
      (by dsimp only; omega)]
    dsimp only
    rw [help_execute_success c roll _ _ (by dsimp only; omega) (by dsimp only; omega)
      (by dsimp only; omega)]
    dsimp only
    rw [hc0]
    norm_num [help_die]
    refine ⟨(hroll 8 (by norm_num)).1, (hroll 8 (by norm_num)).2, (hroll 6 (by norm_num)).1,
      (hroll 6 (by norm_num)).2, (hroll 4 (by norm_num)).1, (hroll 4 (by norm_num)).2, by ring⟩

/-- Roll oracle that always returns 1, for the C9 witness. -/
def rollOne : ℕ → ℕ := fun _ => 1

/-- Fresh helper with four action points, for the C9 witness. -/
def helperFresh : ActorState := { current_action_points := 4 }

/-- Helped ally, for the C9 witness. -/
def helpedAlly : ActorState := { current_action_points := 4 }

/-- Help action costing one action point, for the C9 witness. -/
def helpCost : ActionCosts := { action_points_cost := 1 }

/-- Witness for C9: a fresh helper with 4 action points helping the same
ally three times with an all-ones roll oracle uses dice d8, d6, d4. -/
theorem help_die_progression_witness :
    (let r1 := Help.execute helpCost rollOne helperFresh helpedAlly
     let r2 := Help.execute helpCost rollOne r1.source r1.target
     let r3 := Help.execute helpCost rollOne r2.source r2.target
     r1.performed = true ∧ r2.performed = true ∧ r3.performed = true ∧
     r1.die = 8 ∧ r2.die = 6 ∧ r3.die = 4 ∧
     1 ≤ r1.bonus ∧ r1.bonus ≤ 8 ∧ 1 ≤ r2.bonus ∧ r2.bonus ≤ 6 ∧
     1 ≤ r3.bonus ∧ r3.bonus ≤ 4 ∧
     r3.source.help_count = 3 ∧
     r3.target.one_time_hit_bonus =
       helpedAlly.one_time_hit_bonus + ((r1.bonus : ℤ) + r2.bonus + r3.bonus)) :=
  (help_die_progression helpCost rollOne helperFresh helpedAlly
    (fun n hn => ⟨le_refl 1, hn⟩) (by decide) (by decide) (by decide) (by decide)
    (by decide) (by decide) (by decide)).2.2

/-- Modelled from the spec: step 5 of the damage pipeline (`resolve(actor,
damage_event, ignore_damage_reduction=false)`, spec §4.3).  The `actors.py`
revision in the snapshot exposes the pipeline only without the flag
(`Actor.calculate_damage_taken`), while `Attack.execute` in `actions.py`
calls `take_damage(..., ignore_damage_reduction=...)`; the flag-accepting
revision of the actor is not in the snapshot.  Per the spec, the pipeline is
the one of `Actor.calculate_damage_taken`, except that the damage-reduction
subtraction is skipped when the flag is set. -/
def ActorState.resolve (a : ActorState) (d : Damage)
    (ignore_damage_reduction : Bool) : ℚ :=
  let resistances := matching_modifiers a.resistances d
  let vulnerabilities := matching_modifiers a.vulnerabilities d
  let damage_value :=
    (d.value - additive_resistance resistances) * multiplicative_resistance resistances
  let damage_value :=
    (damage_value + additive_vulnerability vulnerabilities)
      * multiplicative_vulnerability vulnerabilities
  let reduction : ℚ :=
    if d.damage_type.isInstanceOf .physical then a.physical_damage_reduction
    else a.mystical_damage_reduction
  let damage_value :=
    if ignore_damage_reduction then damage_value else damage_value - reduction
  max damage_value 0

/-- Modelled from the spec: `Actor.take_damage(damages,
ignore_damage_reduction)` as called by `Attack.execute` — the resolved
values of the listed damage events are totalled and subtracted from health
(spec §4.3, "Applying a list of damage events to an actor sums step-6
results and decrements current health by the total"). -/
def ActorState.take_damage (a : ActorState) (ds : List Damage)
    (ignore_damage_reduction : Bool) : ActorState :=
  { a with health_points :=
      a.health_points - (ds.map (fun d => a.resolve d ignore_damage_reduction)).sum }

/-- Accumulation loop of `Weapon.apply_styles` in `items.py`: each style
contributes a (bonus damage, bonus to-hit) pair for the given defender; the
pairs are summed component-wise.  The per-style pair returned by
`style.apply_effect(defender)` is supplied as data, since it depends only on
the defender's conditions. -/
def apply_styles (style_results : List (ℤ × ℤ)) : ℤ × ℤ :=
  style_results.foldl (fun acc p => (acc.1 + p.1, acc.2 + p.2)) (0, 0)

/-- Python `max` over a list of attack rolls (the roll list is never empty
in `Attack.execute`; the empty case is unreachable). -/
def list_max : List ℤ → ℤ
  | [] => 0
  | h :: t => t.foldl max h

/-- Python `min` over a list of attack rolls (the roll list is never empty
in `Attack.execute`; the empty case is unreachable). -/
def list_min : List ℤ → ℤ
  | [] => 0
  | h :: t => t.foldl min h

/-- Intermediate attack-roll quantities computed by `Attack.execute`. -/
structure AttackNumbers where
  disadvantage_count : ℤ
  attack_roll : ℤ
  attack_tot : ℤ
  bonus_dmg_ws : ℤ
  bonus_hit_ws : ℤ
  attack_tot_target : ℤ
  is_critical_hit : Bool

/-- Attack-roll computation of `Attack.execute` in `actions.py`, taken on
the source state after its `attack_count` increment: disadvantage from
attacks beyond the penalty threshold plus one if the target dodges, roll
count `max(disadvantage + 1 - advantage, 1)`, highest roll kept under net
advantage and lowest otherwise, then the attack total from prime modifier,
combat mastery, one-time hit bonus and the general roll bonus, and the
per-target total adding the weapon-style hit bonus.  The critical flag
compares the raw die with the source's critical-hit threshold. -/
def attack_numbers (rolls : ℕ → ℕ) (bonus_to_hit : ℤ) (style_results : List (ℤ × ℤ))
    (s t : ActorState) : AttackNumbers :=
  let advantage_count := s.advantage_count
  let dis0 := max 0 (s.attack_count - s.max_attack_before_penalty)
  let disadvantage_count :=
    if t.is_full_dodging || t.is_dodging then dis0 + 1 else dis0
  let n := max (disadvantage_count + 1 - advantage_count) 1
  let roll_values := (List.range n.toNat).map (fun i => (rolls i : ℤ))
  let attack_roll :=
    if advantage_count > disadvantage_count then list_max roll_values
    else list_min roll_values
  let attack_tot := attack_roll + s.prime_modifier + s.combat_mastery
    + s.one_time_hit_bonus + bonus_to_hit
  let ws := apply_styles style_results
  { disadvantage_count := disadvantage_count
    attack_roll := attack_roll
    attack_tot := attack_tot
    bonus_dmg_ws := ws.1
    bonus_hit_ws := ws.2
    attack_tot_target := attack_tot + ws.2
    is_critical_hit := decide (attack_roll = s.critical_hit_threshold) }

/-- Heavy/brutal bonus damage of `Attack.execute`: when the per-target
attack total exceeds the defense by a margin of at least 5, one increment of
heavy-hit damage plus `margin // 5 - 1` increments of brutal-hit damage. -/
def heavy_brutal_bonus (margin heavy brutal : ℤ) : ℤ :=
  if 5 ≤ margin then heavy + (margin / 5 - 1) * brutal else 0

/-- Per-component damage list built by the hit branch of `Attack.execute`:
the first weapon damage component receives the accumulated bonus and the
weapon-style damage bonus; the remaining components keep their base value. -/
def applied_components : List Damage → ℤ → ℤ → List Damage
  | [], _, _ => []
  | d :: rest, bonus, ws => ⟨d.damage_type, d.value + (bonus : ℚ) + (ws : ℚ)⟩ :: rest

/-- Observable outcome of one execution of the Attack action. -/
structure AttackResult where
  source : ActorState
  target : ActorState
  performed : Bool := false
  hit : Bool := false
  is_critical_hit : Bool := false
  is_heavy_hit : Bool := false
  ignore_dr : Bool := false
  applied_damages : List Damage := []

/-- Method `Attack.execute` of `actions.py`.  After the cost gate the
source's attack count is incremented, the attack numbers are computed (the
target's one-shot dodge flag being consumed), the source's one-time hit
bonus is cleared, and — `ValueError` if the source has no weapon — the hit
test `attack_tot_target >= defense or is_critical_hit` decides whether the
weapon's damage components (first one carrying the heavy/brutal, critical,
flat and weapon-style bonuses) are applied through `take_damage`, with
damage reduction ignored on a heavy or critical hit. -/
def Attack.execute (c : ActionCosts) (rolls : ℕ → ℕ) (bonus_to_hit : ℤ)
    (style_results : List (ℤ × ℤ)) (source target : ActorState) :
    Except String AttackResult :=
  match Action.apply_costs c source with
  | (false, s) => .ok { source := s, target := target }
  | (true, s1) =>
    let s2 := { s1 with attack_count := s1.attack_count + 1 }
    let nums := attack_numbers rolls bonus_to_hit style_results s2 target
    let t1 :=
      if target.is_full_dodging || target.is_dodging then
        { target with is_dodging := false }
      else target
    let s3 := { s2 with one_time_hit_bonus := 0 }
    match s2.weapons with
    | [] => .error "no weapon equipped"
    | weapon :: _ =>
      if t1.physical_defense ≤ nums.attack_tot_target ∨ nums.is_critical_hit = true then
        let margin := nums.attack_tot_target - t1.physical_defense
        let is_heavy_hit := decide (5 ≤ margin)
        let damage_bonus :=
          heavy_brutal_bonus margin s3.heavy_hit_damage s3.brutal_hit_damage
            + (if nums.is_critical_hit then s3.critical_hit_damage else 0)
            + s3.hit_damage
        let ignore := nums.is_critical_hit || is_heavy_hit
        let comps := applied_components weapon.damages damage_bonus nums.bonus_dmg_ws
        let t2 := comps.foldl (fun acc d => acc.take_damage [d] ignore) t1
        .ok { source := s3, target := t2, performed := true, hit := true,
              is_critical_hit := nums.is_critical_hit, is_heavy_hit := is_heavy_hit,
              ignore_dr := ignore, applied_damages := comps }
      else
        .ok { source := s3, target := t1, performed := true }

/-- Source state inside `Attack.execute` after the cost deduction and the
`source.attack_count += 1` increment. -/
def attack_s2 (c : ActionCosts) (src : ActorState) : ActorState :=
  { src with
    current_action_points := src.current_action_points - c.action_points_cost
    current_mana_points := src.current_mana_points - c.mana_points_cost
    current_stamina_points := src.current_stamina_points - c.stamina_points_cost
    attack_count := src.attack_count + 1 }

/-- Target state inside `Attack.execute` after the one-shot dodge flag is
consumed (`target.is_dodging = False` whenever the target was dodging or
full-dodging). -/
def attack_t1 (tgt : ActorState) : ActorState :=
  if tgt.is_full_dodging || tgt.is_dodging then { tgt with is_dodging := false }
  else tgt

theorem attack_t1_resolve (tgt : ActorState) (d : Damage) (ig : Bool) :
    (attack_t1 tgt).resolve d ig = tgt.resolve d ig := by
  unfold attack_t1
  split <;> rfl

theorem attack_t1_health (tgt : ActorState) :
    (attack_t1 tgt).health_points = tgt.health_points := by
  unfold attack_t1
  split <;> rfl

theorem foldl_take_damage_health (ds : List Damage) (t : ActorState) (ig : Bool) :
    (ds.foldl (fun acc d => acc.take_damage [d] ig) t).health_points =
      t.health_points - (ds.map (fun d => t.resolve d ig)).sum := by
  induction ds generalizing t with
  | nil => simp
  | cons d rest ih =>
    simp only [List.foldl_cons, List.map_cons, List.sum_cons]
    rw [ih]
    have hres : ∀ d', (t.take_damage [d] ig).resolve d' ig = t.resolve d' ig :=
      fun _ => rfl
    simp only [hres]
    simp only [ActorState.take_damage, List.map_cons, List.map_nil,
      List.sum_cons, List.sum_nil]
    ring

theorem attack_execute_ok (c : ActionCosts) (rolls : ℕ → ℕ) (bonus_to_hit : ℤ)
    (style_results : List (ℤ × ℤ)) (src tgt : ActorState) (w : Weapon)
    (ws : List Weapon)
    (h1 : c.action_points_cost ≤ src.current_action_points)
    (h2 : c.mana_points_cost ≤ src.current_mana_points)
    (h3 : c.stamina_points_cost ≤ src.current_stamina_points)
    (hw : src.weapons = w :: ws) :
    Attack.execute c rolls bonus_to_hit style_results src tgt =
      (let nums := attack_numbers rolls bonus_to_hit style_results (attack_s2 c src) tgt
       let s3 := { attack_s2 c src with one_time_hit_bonus := 0 }
       if tgt.physical_defense ≤ nums.attack_tot_target ∨ nums.is_critical_hit = true then
         let margin := nums.attack_tot_target - tgt.physical_defense
         let is_heavy_hit := decide (5 ≤ margin)
         let damage_bonus :=
           heavy_brutal_bonus margin src.heavy_hit_damage src.brutal_hit_damage
             + (if nums.is_critical_hit then src.critical_hit_damage else 0)
             + src.hit_damage
         let ignore := nums.is_critical_hit || is_heavy_hit
         let comps := applied_components w.damages damage_bonus nums.bonus_dmg_ws
         .ok { source := s3,
               target := comps.foldl (fun acc d => acc.take_damage [d] ignore) (attack_t1 tgt),
               performed := true, hit := true, is_critical_hit := nums.is_critical_hit,
               is_heavy_hit := is_heavy_hit, ignore_dr := ignore,
               applied_damages := comps }
       else .ok { source := s3, target := attack_t1 tgt, performed := true }) := by
  rw [Attack.execute, apply_costs_success c src h1 h2 h3]
  dsimp only [attack_s2, attack_t1]
  rw [hw]
  cases (tgt.is_full_dodging || tgt.is_dodging) <;> rfl

/-- CLAIM C4.  An executed Attack registers a hit iff the per-target attack
total — raw die plus prime modifier, combat mastery, one-time hit bonus,
general roll bonus, and weapon-style hit bonus — reaches the target's
physical defense, or the raw die equals the attacker's critical-hit
threshold; the critical case hits independently of the defense. -/
theorem attack_hit_iff (c : ActionCosts) (rolls : ℕ → ℕ) (bonus_to_hit : ℤ)
    (style_results : List (ℤ × ℤ)) (src tgt : ActorState) (r : AttackResult)
    (h : Attack.execute c rolls bonus_to_hit style_results src tgt = .ok r)
    (hperf : r.performed = true) :
    (attack_numbers rolls bonus_to_hit style_results (attack_s2 c src) tgt).attack_tot_target
        = (attack_numbers rolls bonus_to_hit style_results (attack_s2 c src) tgt).attack_roll
          + src.prime_modifier + src.combat_mastery + src.one_time_hit_bonus
          + bonus_to_hit + (apply_styles style_results).2 ∧
    (r.hit = true ↔
      (tgt.physical_defense ≤
          (attack_numbers rolls bonus_to_hit style_results (attack_s2 c src) tgt).attack_tot_target
        ∨ (attack_numbers rolls bonus_to_hit style_results (attack_s2 c src) tgt).attack_roll
            = src.critical_hit_threshold)) := by
  refine ⟨rfl, ?_⟩
  rcases apply_costs_cases c src with hg | ⟨hg, h1, h2, h3⟩
  · rw [Attack.execute, hg] at h
    dsimp only at h
    obtain rfl : _ = r := by injection h
    exact absurd hperf (by simp)
  · rcases hws : src.weapons with _ | ⟨w, wsl⟩
    · rw [Attack.execute, hg] at h
      dsimp only at h
      rw [hws] at h
      exact Except.noConfusion h
    · rw [attack_execute_ok c rolls bonus_to_hit style_results src tgt w wsl h1 h2 h3 hws] at h
      dsimp only at h
      by_cases hcond : (tgt.physical_defense ≤
          (attack_numbers rolls bonus_to_hit style_results (attack_s2 c src) tgt).attack_tot_target
        ∨ (attack_numbers rolls bonus_to_hit style_results (attack_s2 c src) tgt).is_critical_hit
            = true)
      · rw [if_pos hcond] at h
        obtain rfl : _ = r := by injection h
        constructor
        · intro _
          rcases hcond with hc | hc
          · exact Or.inl hc
          · exact Or.inr (of_decide_eq_true hc)
        · intro _
          rfl
      · rw [if_neg hcond] at h
        obtain rfl : _ = r := by injection h
        constructor
        · intro hfalse
          exact Bool.noConfusion hfalse
        · intro hcond2
          exact absurd (hcond2.elim (fun hc => Or.inl hc)
            (fun hc => Or.inr (decide_eq_true hc))) hcond

/-- CLAIM C3.  When an executed Attack lands as a critical or heavy hit, the
ignore-damage-reduction flag passed into the target's `take_damage` path is
set, that path resolves every damage component without subtracting any
damage-reduction stat (step 5 of the pipeline is skipped), and the target's
health drops by exactly the sum of the reduction-free pipeline results of
the applied components. -/
theorem attack_heavy_or_crit_bypasses_dr (c : ActionCosts) (rolls : ℕ → ℕ)
    (bonus_to_hit : ℤ) (style_results : List (ℤ × ℤ)) (src tgt : ActorState)
    (r : AttackResult)
    (h : Attack.execute c rolls bonus_to_hit style_results src tgt = .ok r)
    (hhc : r.is_critical_hit = true ∨ r.is_heavy_hit = true) :
    r.ignore_dr = true ∧ r.hit = true ∧
    (∀ (a : ActorState) (d : Damage), a.resolve d true =
      max (((d.value - additive_resistance (matching_modifiers a.resistances d))
          * multiplicative_resistance (matching_modifiers a.resistances d)
        + additive_vulnerability (matching_modifiers a.vulnerabilities d))
          * multiplicative_vulnerability (matching_modifiers a.vulnerabilities d)) 0) ∧
    r.target.health_points =
      tgt.health_points - (r.applied_damages.map (fun d => tgt.resolve d true)).sum := by
  rcases apply_costs_cases c src with hg | ⟨hg, h1, h2, h3⟩
  · rw [Attack.execute, hg] at h
    dsimp only at h
    obtain rfl : _ = r := by injection h
    rcases hhc with hf | hf <;> exact Bool.noConfusion hf
  · rcases hws : src.weapons with _ | ⟨w, wsl⟩
    · rw [Attack.execute, hg] at h
      dsimp only at h
      rw [hws] at h
      exact Except.noConfusion h
    · rw [attack_execute_ok c rolls bonus_to_hit style_results src tgt w wsl h1 h2 h3 hws] at h
      dsimp only at h
      by_cases hcond : (tgt.physical_defense ≤
          (attack_numbers rolls bonus_to_hit style_results (attack_s2 c src) tgt).attack_tot_target
        ∨ (attack_numbers rolls bonus_to_hit style_results (attack_s2 c src) tgt).is_critical_hit
            = true)
      · rw [if_pos hcond] at h
        obtain rfl : _ = r := by injection h
        dsimp only at hhc
        have hig : ((attack_numbers rolls bonus_to_hit style_results (attack_s2 c src) tgt).is_critical_hit
            || decide (5 ≤
              (attack_numbers rolls bonus_to_hit style_results (attack_s2 c src) tgt).attack_tot_target
                - tgt.physical_defense)) = true := by
          rcases hhc with hf | hf
          · simp [hf]
          · simp [hf]
        refine ⟨hig, rfl, fun a d => rfl, ?_⟩
        dsimp only
        rw [foldl_take_damage_health]
        rw [attack_t1_health]
        simp only [attack_t1_resolve]
        simp only [hig]
      · rw [if_neg hcond] at h
        obtain rfl : _ = r := by injection h
        rcases hhc with hf | hf <;> exact Bool.noConfusion hf

/-- CLAIM C5.  Heavy/brutal tiering of `Attack.execute`: for margin `m =
attack total - defense`, a hit with `5 ≤ m < 10` earns exactly the heavy-hit
damage with zero brutal increments, in general `m ≥ 5` earns
`heavy_hit_damage + (m // 5 - 1) * brutal_hit_damage` (so `m = 10` adds
exactly one brutal increment), `m < 5` earns no heavy/brutal bonus, and the
whole bonus (heavy/brutal plus critical and flat hit damage and the
weapon-style damage bonus) lands on the first weapon component only. -/
theorem attack_heavy_brutal_tiering (m heavy brutal : ℤ) (c : ActionCosts)
    (rolls : ℕ → ℕ) (bonus_to_hit : ℤ) (style_results : List (ℤ × ℤ))
    (src tgt : ActorState) (r : AttackResult) (w : Weapon) (wsl : List Weapon)
    (d0 : Damage) (drest : List Damage)
    (h : Attack.execute c rolls bonus_to_hit style_results src tgt = .ok r)
    (hhit : r.hit = true)
    (hws : src.weapons = w :: wsl) (hwd : w.damages = d0 :: drest) :
    (5 ≤ m → heavy_brutal_bonus m heavy brutal = heavy + (m / 5 - 1) * brutal) ∧
    (5 ≤ m → m < 10 → heavy_brutal_bonus m heavy brutal = heavy) ∧
    (heavy_brutal_bonus 10 heavy brutal = heavy + brutal) ∧
    (m < 5 → heavy_brutal_bonus m heavy brutal = 0) ∧
    r.applied_damages = ⟨d0.damage_type,
        d0.value + ((heavy_brutal_bonus
            ((attack_numbers rolls bonus_to_hit style_results (attack_s2 c src) tgt).attack_tot_target
              - tgt.physical_defense) src.heavy_hit_damage src.brutal_hit_damage
          + (if r.is_critical_hit = true then src.critical_hit_damage else 0)
          + src.hit_damage : ℤ) : ℚ)
        + (((attack_numbers rolls bonus_to_hit style_results (attack_s2 c src) tgt).bonus_dmg_ws : ℤ) : ℚ)⟩
      :: drest := by
  refine ⟨?_, ?_, ?_, ?_, ?_⟩
  · intro h5
    unfold heavy_brutal_bonus
    rw [if_pos h5]
  · intro h5 h10
    unfold heavy_brutal_bonus
    rw [if_pos h5]
    have hq : m / 5 = 1 := by omega
    rw [hq]
    ring
  · norm_num [heavy_brutal_bonus]
  · intro h5
    unfold heavy_brutal_bonus
    rw [if_neg (by omega)]
  · rcases apply_costs_cases c src with hg | ⟨hg, h1, h2, h3⟩
    · rw [Attack.execute, hg] at h
      dsimp only at h
      obtain rfl : _ = r := by injection h
      exact Bool.noConfusion hhit
    · rw [attack_execute_ok c rolls bonus_to_hit style_results src tgt w wsl h1 h2 h3 hws] at h
      dsimp only at h
      by_cases hcond : (tgt.physical_defense ≤
          (attack_numbers rolls bonus_to_hit style_results (attack_s2 c src) tgt).attack_tot_target
        ∨ (attack_numbers rolls bonus_to_hit style_results (attack_s2 c src) tgt).is_critical_hit
            = true)
      · rw [if_pos hcond] at h
        obtain rfl : _ = r := by injection h
        dsimp only
        rw [hwd]
        rfl
      · rw [if_neg hcond] at h
        obtain rfl : _ = r := by injection h
        exact Bool.noConfusion hhit

/-- Roll oracle that always rolls 20, for the attack witnesses. -/
def rolls20 : ℕ → ℕ := fun _ => 20

/-- Roll oracle that always rolls 18, for the attack witnesses. -/
def rolls18 : ℕ → ℕ := fun _ => 18

/-- Sample one-component slashing weapon, for the attack witnesses. -/
def weaponSample : Weapon := { damages := [⟨DamageClass.slashing, 1⟩] }

/-- Sample attacker with the sample weapon, heavy/brutal damage 1 and
critical damage 2, for the attack witnesses. -/
def attackerSample : ActorState :=
  { weapons := [weaponSample], heavy_hit_damage := 1, brutal_hit_damage := 1,
    critical_hit_damage := 2 }

/-- Sample attacker whose prime modifier -20 cancels the die, so its attack
total is 0, for the critical-hit witnesses. -/
def attackerCrit : ActorState :=
  { weapons := [weaponSample], prime_modifier := -20, critical_hit_damage := 2 }

/-- Sample defender with physical defense 999, for the critical-hit
witnesses. -/
def defenderTough : ActorState := { physical_defense := 999 }

/-- Sample defender with physical defense 8, for the heavy-hit witness. -/
def defenderWeak : ActorState := { physical_defense := 8 }

/-- Result of the sample critical attack (die 20 = threshold, attack total
0 against defense 999). -/
def attackCritResult : AttackResult :=
  ((Attack.execute {} rolls20 0 [] attackerCrit defenderTough).toOption).getD
    { source := attackerCrit, target := defenderTough }

/-- Result of the sample heavy attack (die 18, attack total 18 against
defense 8: margin 10). -/
def attackHeavyResult : AttackResult :=
  ((Attack.execute {} rolls18 0 [] attackerSample defenderWeak).toOption).getD
    { source := attackerSample, target := defenderWeak }

/-- Witness for C4: the critical roll with attack total 0 against defense
999 still registers a hit. -/
theorem attack_hit_iff_witness : attackCritResult.hit = true :=
  ((attack_hit_iff {} rolls20 0 [] attackerCrit defenderTough attackCritResult
    rfl rfl).2).mpr (Or.inr (by decide))

/-- Witness for C3: the critical sample attack sets the
ignore-damage-reduction flag and drops the defender's health by exactly the
reduction-free pipeline total of the applied components. -/
theorem attack_heavy_or_crit_bypasses_dr_witness :
    attackCritResult.ignore_dr = true ∧
    attackCritResult.target.health_points =
      defenderTough.health_points -
        (attackCritResult.applied_damages.map (fun d => defenderTough.resolve d true)).sum :=
  have t := attack_heavy_or_crit_bypasses_dr {} rolls20 0 [] attackerCrit
    defenderTough attackCritResult rfl (Or.inl (by decide))
  ⟨t.1, t.2.2.2⟩

/-- Witness for C5: margin 7 earns exactly the heavy bonus, margin 10 earns
heavy plus one brutal increment, and the sample heavy attack puts the whole
bonus on its only weapon component. -/
theorem attack_heavy_brutal_tiering_witness :
    heavy_brutal_bonus 7 2 3 = 2 ∧ heavy_brutal_bonus 10 2 3 = 2 + 3 ∧
    attackHeavyResult.applied_damages = ⟨DamageClass.slashing,
      (1 : ℚ) + ((heavy_brutal_bonus
          ((attack_numbers rolls18 0 [] (attack_s2 {} attackerSample) defenderWeak).attack_tot_target
            - defenderWeak.physical_defense)
          attackerSample.heavy_hit_damage attackerSample.brutal_hit_damage
        + (if attackHeavyResult.is_critical_hit = true then attackerSample.critical_hit_damage else 0)
        + attackerSample.hit_damage : ℤ) : ℚ)
      + (((attack_numbers rolls18 0 [] (attack_s2 {} attackerSample) defenderWeak).bonus_dmg_ws : ℤ) : ℚ)⟩
      :: [] := by
  have t := attack_heavy_brutal_tiering 7 2 3 {} rolls18 0 [] attackerSample
    defenderWeak attackHeavyResult weaponSample [] ⟨DamageClass.slashing, 1⟩ []
    rfl rfl rfl rfl
  exact ⟨t.2.1 (by decide) (by decide), t.2.2.1, t.2.2.2.2⟩

theorem multiplicative_resistance_bounds (rs : List DamageModifier)
    (h : ∀ m ∈ rs, m.is_multiplicative = true → 0 ≤ m.value ∧ m.value ≤ 1) :
    0 ≤ multiplicative_resistance rs ∧ multiplicative_resistance rs ≤ 1 := by
  induction rs with
  | nil => simp [multiplicative_resistance]
  | cons m rest ih =>
    have hrest := ih (fun x hx => h x (List.mem_cons_of_mem m hx))
    cases hm : m.is_multiplicative with
    | false =>
      simpa [multiplicative_resistance, List.filter_cons, hm] using hrest
    | true =>
      have hmv := h m (List.mem_cons_self m rest) hm
      simp only [multiplicative_resistance, List.filter_cons, hm, eq_self_iff_true,
        if_true, List.map_cons, List.prod_cons] at hrest ⊢
      constructor
      · exact mul_nonneg hmv.1 hrest.1
      · calc m.value * ((rest.filter (fun r => r.is_multiplicative)).map (fun r => r.value)).prod
            ≤ 1 * 1 := mul_le_mul hmv.2 hrest.2 hrest.1 zero_le_one
          _ = 1 := one_mul 1

theorem multiplicative_vulnerability_ge_one (vs : List DamageModifier)
    (h : ∀ m ∈ vs, m.is_multiplicative = true → 1 ≤ m.value) :
    1 ≤ multiplicative_vulnerability vs := by
  induction vs with
  | nil => simp [multiplicative_vulnerability]
  | cons m rest ih =>
    have hrest := ih (fun x hx => h x (List.mem_cons_of_mem m hx))
    cases hm : m.is_multiplicative with
    | false =>
      simpa [multiplicative_vulnerability, List.filter_cons, hm] using hrest
    | true =>
      have hmv := h m (List.mem_cons_self m rest) hm
      simp only [multiplicative_vulnerability, List.filter_cons, hm, eq_self_iff_true,
        if_true, List.map_cons, List.prod_cons] at hrest ⊢
      calc (1 : ℚ) = 1 * 1 := (one_mul 1).symm
        _ ≤ m.value * ((rest.filter (fun v => v.is_multiplicative)).map (fun v => v.value)).prod :=
            mul_le_mul hmv hrest zero_le_one (le_trans zero_le_one hmv)

/-- Multiplicative fire resistance of factor one half, exactly as
`Resistance.__init__` accepts it. -/
def resistanceHalf : DamageModifier := ⟨DamageClass.fire, 1/2, true, none⟩

/-- Additive fire resistance of 20 (no validation applies to additive
values). -/
def resistanceAdd20 : DamageModifier := ⟨DamageClass.fire, 20, false, none⟩

/-- Additive fire vulnerability of 20. -/
def vulnerabilityAdd20 : DamageModifier := ⟨DamageClass.fire, 20, false, none⟩

/-- Multiplicative fire vulnerability of factor 2, exactly as
`Vulnerability.__init__` accepts it. -/
def vulnerabilityDouble : DamageModifier := ⟨DamageClass.fire, 2, true, none⟩

/-- Victim carrying the additive-20 and the multiplicative-half fire
resistances plus the additive-20 fire vulnerability. -/
def victimWithHalf : Actor :=
  { resistances := [resistanceAdd20, resistanceHalf],
    vulnerabilities := [vulnerabilityAdd20] }

/-- Victim identical to `victimWithHalf` except without the multiplicative
resistance. -/
def victimNoHalf : Actor :=
  { resistances := [resistanceAdd20], vulnerabilities := [vulnerabilityAdd20] }

/-- Counterexample to C10 as stated: the factor-1/2 multiplicative fire
resistance passes `Resistance.__init__` validation, yet on the running value
-10 (reachable when additive resistances exceed the magnitude) the
multiplicative resistance step strictly increases the value, and on the full
pipeline the extra multiplicative resistance raises the final damage of a
10-point fire hit from 10 to 15. -/
theorem multiplicative_resistance_can_increase_damage :
    Resistance.make DamageClass.fire (1/2) true = .ok resistanceHalf ∧
    ¬ ((-10 : ℚ) * multiplicative_resistance [resistanceHalf] ≤ (-10 : ℚ)) ∧
    Actor.calculate_damage_taken victimWithHalf ⟨DamageClass.fire, 10⟩ = 15 ∧
    Actor.calculate_damage_taken victimNoHalf ⟨DamageClass.fire, 10⟩ = 10 := by
  have hm : multiplicative_resistance [resistanceHalf] = 1/2 := by
    simp [multiplicative_resistance, resistanceHalf, List.filter_cons]
  refine ⟨?_, ?_, ?_, ?_⟩
  · unfold Resistance.make
    rw [if_neg]
    · rfl
    · simp only [Bool.true_and, Bool.or_eq_true, decide_eq_true_eq, not_or]
      constructor <;> norm_num
  · rw [hm]
    norm_num
  · unfold Actor.calculate_damage_taken victimWithHalf
    simp only [matching_modifiers, additive_resistance, additive_vulnerability,
      multiplicative_resistance, multiplicative_vulnerability,
      DamageClass.isInstanceOf, DamageClass.parent, resistanceAdd20, resistanceHalf,
      vulnerabilityAdd20, List.filter_cons, List.filter_nil]
    norm_num
  · unfold Actor.calculate_damage_taken victimNoHalf
    simp only [matching_modifiers, additive_resistance, additive_vulnerability,
      multiplicative_resistance, multiplicative_vulnerability,
      DamageClass.isInstanceOf, DamageClass.parent, resistanceAdd20,
      vulnerabilityAdd20, List.filter_cons, List.filter_nil]
    norm_num

/-- CLAIM C10 (amended).  `Resistance.__init__` rejects a multiplicative
value outside [0, 1] with a `ValueError` and `Vulnerability.__init__`
rejects a multiplicative value below 1, so every constructed multiplicative
resistance factor lies in [0, 1] and every constructed multiplicative
vulnerability factor is at least 1; consequently, whenever the value
entering the step is nonnegative, the multiplicative resistance step never
increases it and the multiplicative vulnerability step never decreases
it. -/
theorem resistance_vulnerability_validation (dt : DamageClass) (value : ℚ) :
    ((1 < value ∨ value < 0) → Resistance.make dt value true =
      .error "For multiplicative resistance, the value must be between 0 and 1.") ∧
    (∀ r, Resistance.make dt value true = .ok r → 0 ≤ r.value ∧ r.value ≤ 1) ∧
    (value < 1 → Vulnerability.make dt value true =
      .error "For multiplicative vulnerability, the value must be greater than 1.") ∧
    (∀ v, Vulnerability.make dt value true = .ok v → 1 ≤ v.value) ∧
    (∀ (x : ℚ) (rs : List DamageModifier), 0 ≤ x →
      (∀ m ∈ rs, m.is_multiplicative = true → 0 ≤ m.value ∧ m.value ≤ 1) →
      x * multiplicative_resistance rs ≤ x) ∧
    (∀ (x : ℚ) (vs : List DamageModifier), 0 ≤ x →
      (∀ m ∈ vs, m.is_multiplicative = true → 1 ≤ m.value) →
      x ≤ x * multiplicative_vulnerability vs) := by
  refine ⟨?_, ?_, ?_, ?_, ?_, ?_⟩
  · intro hv
    unfold Resistance.make
    rw [if_pos]
    rcases hv with hv | hv <;> simp [hv]
  · intro r hr
    unfold Resistance.make at hr
    by_cases g : (true && (decide (value > 1) || decide (value < 0))) = true
    · rw [if_pos g] at hr
      exact Except.noConfusion hr
    · rw [if_neg g] at hr
      obtain rfl : _ = r := by injection hr
      simp only [Bool.true_and, Bool.or_eq_true, decide_eq_true_eq, not_or] at g
      exact ⟨le_of_not_lt g.2, le_of_not_lt g.1⟩
  · intro hv
    unfold Vulnerability.make
    rw [if_pos]
    simp [hv]
  · intro v hv
    unfold Vulnerability.make at hv
    by_cases g : (true && decide (value < 1)) = true
    · rw [if_pos g] at hv
      exact Except.noConfusion hv
    · rw [if_neg g] at hv
      obtain rfl : _ = v := by injection hv
      simp only [Bool.true_and, decide_eq_true_eq, not_lt] at g
      exact g
  · intro x rs hx h
    exact mul_le_of_le_one_right hx (multiplicative_resistance_bounds rs h).2
  · intro x vs hx h
    exact le_mul_of_one_le_right hx (multiplicative_vulnerability_ge_one vs h)

/-- Witness for the amended C10: value 2 is refused as a multiplicative
resistance, the factor-1/2 resistance never raises a nonnegative value, and
the factor-2 vulnerability never lowers one. -/
theorem resistance_vulnerability_validation_witness :
    Resistance.make DamageClass.fire 2 true =
      .error "For multiplicative resistance, the value must be between 0 and 1." ∧
    (3 : ℚ) * multiplicative_resistance [resistanceHalf] ≤ 3 ∧
    (3 : ℚ) ≤ 3 * multiplicative_vulnerability [vulnerabilityDouble] :=
  have t := resistance_vulnerability_validation DamageClass.fire 2
  ⟨t.1 (Or.inl (by norm_num)),
    t.2.2.2.2.1 3 [resistanceHalf] (by norm_num)
      (by
        intro m hm hmul
        simp only [List.mem_singleton] at hm
        subst hm
        constructor <;> norm_num [resistanceHalf]),
    t.2.2.2.2.2 3 [vulnerabilityDouble] (by norm_num)
      (by
        intro m hm hmul
        simp only [List.mem_singleton] at hm
        subst hm
        norm_num [vulnerabilityDouble])⟩

end PyTTRPG
